import Mathlib

/-!
Verification of the `siggen` build script (`python/setup.py`).

The script is straight-line Python that (a) imports a packaging helper with
a fallback, (b) imports numpy, `Cython.Build.cythonize` and
`MakeGeometrySource.make_source`, (c) generates geometry source fragments,
(d) configures one C++ extension, (e) sets a builtins flag and imports the
`siggen` package for its version, and (f) calls `setup`.

We embed it as a pure function from an environment (which modules are
importable, the platform name, the Python major version, the absolute path
of the script file, ...) to either a Python `ImportError` or a run result:
the ordered trace of the script's effects together with the configured
extension and the arguments finally handed to `setup`.
-/

namespace Siggen

/-- The environment a run of `python/setup.py` is started in: which
dependencies are importable, `os.name`, the interpreter's major version,
`os.path.abspath(__file__)` split into path components, the directory
returned by `numpy.get_include()` and the string `siggen.__version__`. -/
structure Env where
  hasSetuptools : Bool
  hasNumpy : Bool
  hasCython : Bool
  hasMakeGeometrySource : Bool
  hasSiggen : Bool
  osName : String
  pyMajor : Nat
  absFile : List String
  numpyInclude : List String
  siggenVersion : String
  deriving Repr, DecidableEq

/-- A Python exception raised by the script; the only kind the script can
raise itself is a failed import. -/
inductive PyError where
  | importError (modname : String)
  deriving Repr, DecidableEq

/-- One observable effect of the script, in the order it happens:
a module import, the `make_source(geometry_list)` call, the
`cythonize([ext])` call, the `builtins.__SIGGEN_SETUP__ = True` assignment
(payload: the name of the builtins module used), and the final `setup(...)`
call. -/
inductive Event where
  | importEv (modname : String)
  | makeSourceEv (geoms : List String)
  | cythonizeEv
  | builtinsEv (modname : String)
  | setupEv
  deriving Repr, DecidableEq

/-- The keyword arguments of `distutils`/`setuptools` `Extension` that the
script passes. A file path is a list of path components. -/
structure Extension where
  name : String
  sources : List (List String)
  language : String
  libraries : List String
  include_dirs : List (List String)
  extra_compile_args : List String
  extra_link_args : List String
  deriving Repr, DecidableEq

/-- The keyword arguments the script passes to `setup(...)`. -/
structure SetupArgs where
  name : String
  version : String
  author : String
  author_email : String
  packages : List String
  install_requires : List String
  ext_modules : List Extension
  deriving Repr, DecidableEq

/-- The result of a successful run: the effect trace, the configured
extension and the `setup` arguments. -/
structure RunResult where
  trace : List Event
  ext : Extension
  setupArgs : SetupArgs
  deriving Repr, DecidableEq

/-- `try: from setuptools import setup, Extension
except ImportError: from distutils.core import setup, Extension` --
the module that ends up providing `setup` and `Extension`. -/
def packagingSource (e : Env) : String :=
  if e.hasSetuptools = true then "setuptools" else "distutils.core"

/-- `geometry_list = ["PPC", "ICPC", "GEM"]`. -/
def geometry_list : List String := ["PPC", "ICPC", "GEM"]

/-- `basedir = os.path.dirname(os.path.dirname(os.path.abspath(__file__)))`. -/
def basedir (e : Env) : List String := e.absFile.dropLast.dropLast

/-- `libraries = []; if os.name == "posix": libraries.append("m")`. -/
def mkLibraries (e : Env) : List String :=
  if e.osName = "posix" then ["m"] else []

/-- `include_dirs = ["siggen", os.path.join(basedir, "code"), numpy.get_include()]`. -/
def mkIncludeDirs (e : Env) : List (List String) :=
  [["siggen"], basedir e ++ ["code"], e.numpyInclude]

/-- The nine C++ file names listed in the `src` comprehension. -/
def cppFileNames : List String :=
  ["cyl_point.cpp", "point.cpp", "GEM.cpp", "ICPC.cpp", "PPC.cpp",
   "Setup.cpp", "Utils.cpp", "VelocityLookup.cpp", "VelocityModel.cpp"]

/-- `src = [os.path.join(basedir, "code", fn) for fn in [...]]`
followed by `src += [os.path.join("siggen", "_siggen.pyx")]`. -/
def mkSources (e : Env) : List (List String) :=
  (cppFileNames.map (fun fn => basedir e ++ ["code", fn]))
    ++ [["siggen", "_siggen.pyx"]]

/-- `ext = Extension("siggen._siggen", sources=src, language="c++", ...)`. -/
def mkExtension (e : Env) : Extension :=
  { name := "siggen._siggen"
    sources := mkSources e
    language := "c++"
    libraries := mkLibraries e
    include_dirs := mkIncludeDirs e
    extra_compile_args := ["-std=c++11",
                           "-Wno-unused-function",
                           "-Wno-uninitialized",
                           "-DNO_THREADS"]
    extra_link_args := ["-std=c++11"] }

/-- `Cython.Build.cythonize`: external tool, outside this repository.
Its output is a list of extension descriptions for the same extensions it
was given; the `.pyx`-to-`.cpp` translation it performs is not observable
in the script, so it is modelled as preserving the extension list. -/
def cythonize (exts : List Extension) : List Extension := exts

/-- `if sys.version_info[0] < 3: import __builtin__ as builtins
else: import builtins` -- the module whose `__SIGGEN_SETUP__` attribute is
set. -/
def builtinsModule (e : Env) : String :=
  if e.pyMajor < 3 then "__builtin__" else "builtins"

/-- The keyword arguments of the final `setup(...)` call. -/
def mkSetupArgs (e : Env) : SetupArgs :=
  { name := "siggen"
    version := e.siggenVersion
    author := "Ben Shanks"
    author_email := "benjamin.shanks@gmail.com"
    packages := ["siggen"]
    install_requires := ["numpy", "scipy", "cython"]
    ext_modules := cythonize [mkExtension e] }

/-- The result of a run in which every import succeeds: the trace lists
the script's effects in program order. -/
def successResult (e : Env) : RunResult :=
  { trace := [Event.importEv (packagingSource e),
              Event.importEv "numpy",
              Event.importEv "Cython.Build",
              Event.importEv "MakeGeometrySource",
              Event.makeSourceEv geometry_list,
              Event.cythonizeEv,
              Event.builtinsEv (builtinsModule e),
              Event.importEv "siggen",
              Event.setupEv]
    ext := mkExtension e
    setupArgs := mkSetupArgs e }

/-- The whole script. The imports of `numpy`, `Cython.Build` and
`MakeGeometrySource`, and later of `siggen`, are unconditional in the
source; a missing module raises `ImportError` (checked here in the order
the imports occur). Otherwise the run succeeds with `successResult`. -/
def runSetupScript (e : Env) : Except PyError RunResult :=
  if e.hasNumpy = false then Except.error (PyError.importError "numpy")
  else if e.hasCython = false then Except.error (PyError.importError "Cython.Build")
  else if e.hasMakeGeometrySource = false then
    Except.error (PyError.importError "MakeGeometrySource")
  else if e.hasSiggen = false then Except.error (PyError.importError "siggen")
  else Except.ok (successResult e)

/-- Decidable check that every `make_source` call in a trace received
exactly the geometry list `["PPC", "ICPC", "GEM"]`. -/
def makeSourceArgsOk (t : List Event) : Bool :=
  t.all (fun ev => match ev with
    | Event.makeSourceEv gs => gs == ["PPC", "ICPC", "GEM"]
    | _ => true)

/-- Whether a script run ended in an `ImportError`. -/
def raisesImportError (x : Except PyError RunResult) : Bool :=
  match x with
  | Except.error (PyError.importError _) => true
  | Except.ok _ => false

/-- A fully-equipped environment: every dependency importable, posix,
Python 3. -/
def envAll : Env :=
  { hasSetuptools := true
    hasNumpy := true
    hasCython := true
    hasMakeGeometrySource := true
    hasSiggen := true
    osName := "posix"
    pyMajor := 3
    absFile := ["", "home", "user", "siggen", "python", "setup.py"]
    numpyInclude := ["", "usr", "lib", "numpy", "core", "include"]
    siggenVersion := "0.1.0" }

/-- `envAll` with Cython missing. -/
def envNoCython : Env := { envAll with hasCython := false }

/-- `envAll` with setuptools missing. -/
def envNoSetuptools : Env := { envAll with hasSetuptools := false }

/-- `envAll` on a non-posix platform. -/
def envWindows : Env := { envAll with osName := "nt" }

/-- Elimination lemma: a successful run returns exactly `successResult`. -/
theorem runSetupScript_ok (e : Env) (r : RunResult)
    (h : runSetupScript e = Except.ok r) : r = successResult e := by
  unfold runSetupScript at h
  split at h
  · exact absurd h (by simp)
  · split at h
    · exact absurd h (by simp)
    · split at h
      · exact absurd h (by simp)
      · split at h
        · exact absurd h (by simp)
        · exact (Except.ok.inj h).symm

/-- Claim C1, counterexample: with Cython missing (all other dependencies
present), the script does not fall back to pre-generated sources and does
not proceed -- the unconditional `from Cython.Build import cythonize`
raises `ImportError` and the run fails. There is no `do_cython` flag in
`python/setup.py`. -/
theorem missing_cython_fails_counterexample :
    runSetupScript envNoCython
      = Except.error (PyError.importError "Cython.Build") := by
  rfl

/-- Claim C1, amended: when the code-generation dependency (Cython) or the
numeric dependency (numpy) is missing, the script raises `ImportError` and
the build fails; it never degrades to pre-generated sources. -/
theorem missing_dependency_fails (e : Env)
    (h : e.hasNumpy = false ∨ e.hasCython = false) :
    raisesImportError (runSetupScript e) = true := by
  unfold runSetupScript
  rcases h with h | h
  · simp [h, raisesImportError]
  · by_cases hn : e.hasNumpy = false
    · simp [hn, raisesImportError]
    · simp [hn, h, raisesImportError]

/-- Witness for `missing_dependency_fails` at the concrete environment
`envNoCython`. -/
theorem missing_dependency_fails_witness :
    (envNoCython.hasNumpy = false ∨ envNoCython.hasCython = false) ∧
      raisesImportError (runSetupScript envNoCython) = true :=
  ⟨Or.inr rfl, missing_dependency_fails envNoCython (Or.inr rfl)⟩

/-- Claim C2: in every successful run, dependency discovery (the imports
of numpy and the code-generation helpers) happens first, then the geometry
source fragments are generated for the fixed geometry list, then the
extension sources are compiled via `cythonize`, and finally `setup` is
called -- in that order. -/
theorem build_steps_in_order (e : Env) (r : RunResult)
    (h : runSetupScript e = Except.ok r) :
    r.trace.indexOf (Event.importEv "numpy")
        < r.trace.indexOf (Event.makeSourceEv geometry_list) ∧
    r.trace.indexOf (Event.importEv "Cython.Build")
        < r.trace.indexOf (Event.makeSourceEv geometry_list) ∧
    r.trace.indexOf (Event.makeSourceEv geometry_list)
        < r.trace.indexOf Event.cythonizeEv ∧
    r.trace.indexOf Event.cythonizeEv < r.trace.indexOf Event.setupEv ∧
    r.trace.indexOf Event.setupEv < r.trace.length := by
  rw [runSetupScript_ok e r h]
  by_cases hs : e.hasSetuptools = true <;> by_cases hp : e.pyMajor < 3 <;>
    simp [successResult, packagingSource, builtinsModule, hs, hp]

/-- Witness for `build_steps_in_order` at the concrete environment
`envAll`. -/
theorem build_steps_in_order_witness :
    (successResult envAll).trace.indexOf (Event.importEv "numpy")
        < (successResult envAll).trace.indexOf (Event.makeSourceEv geometry_list) ∧
    (successResult envAll).trace.indexOf (Event.importEv "Cython.Build")
        < (successResult envAll).trace.indexOf (Event.makeSourceEv geometry_list) ∧
    (successResult envAll).trace.indexOf (Event.makeSourceEv geometry_list)
        < (successResult envAll).trace.indexOf Event.cythonizeEv ∧
    (successResult envAll).trace.indexOf Event.cythonizeEv
        < (successResult envAll).trace.indexOf Event.setupEv ∧
    (successResult envAll).trace.indexOf Event.setupEv
        < (successResult envAll).trace.length :=
  build_steps_in_order envAll (successResult envAll) rfl

/-- Claim C3: the single configured extension is named `siggen._siggen`;
its source list is exactly the nine named C++ translation units under the
repository's `code` directory followed by the single interop file
`siggen/_siggen.pyx`; and it is the only extension handed on to `setup`. -/
theorem extension_name_and_sources (e : Env) (r : RunResult)
    (h : runSetupScript e = Except.ok r) :
    r.ext.name = "siggen._siggen" ∧
    r.ext.sources =
      (["cyl_point.cpp", "point.cpp", "GEM.cpp", "ICPC.cpp", "PPC.cpp",
        "Setup.cpp", "Utils.cpp", "VelocityLookup.cpp",
        "VelocityModel.cpp"].map (fun fn => basedir e ++ ["code", fn]))
        ++ [["siggen", "_siggen.pyx"]] ∧
    r.setupArgs.ext_modules = cythonize [r.ext] := by
  rw [runSetupScript_ok e r h]
  exact ⟨rfl, rfl, rfl⟩

/-- Witness for `extension_name_and_sources` at the concrete environment
`envAll`. -/
theorem extension_name_and_sources_witness :
    (successResult envAll).ext.name = "siggen._siggen" ∧
    (successResult envAll).ext.sources =
      (["cyl_point.cpp", "point.cpp", "GEM.cpp", "ICPC.cpp", "PPC.cpp",
        "Setup.cpp", "Utils.cpp", "VelocityLookup.cpp",
        "VelocityModel.cpp"].map (fun fn => basedir envAll ++ ["code", fn]))
        ++ [["siggen", "_siggen.pyx"]] ∧
    (successResult envAll).setupArgs.ext_modules
      = cythonize [(successResult envAll).ext] :=
  extension_name_and_sources envAll (successResult envAll) rfl

/-- Claim C4: the geometry list handed to `make_source` is exactly
`["PPC", "ICPC", "GEM"]` in that order; in every successful run every
`make_source` call received exactly this list, and the call happens before
compilation is configured via `cythonize`. -/
theorem geometry_list_fixed (e : Env) (r : RunResult)
    (h : runSetupScript e = Except.ok r) :
    geometry_list = ["PPC", "ICPC", "GEM"] ∧
    makeSourceArgsOk r.trace = true ∧
    r.trace.indexOf (Event.makeSourceEv geometry_list)
        < r.trace.indexOf Event.cythonizeEv ∧
    r.trace.indexOf Event.cythonizeEv < r.trace.length := by
  rw [runSetupScript_ok e r h]
  refine ⟨rfl, ?_, ?_, ?_⟩ <;>
  · by_cases hs : e.hasSetuptools = true <;> by_cases hp : e.pyMajor < 3 <;>
      simp [successResult, packagingSource, builtinsModule, hs, hp,
        makeSourceArgsOk, geometry_list]

/-- Witness for `geometry_list_fixed` at the concrete environment
`envAll`. -/
theorem geometry_list_fixed_witness :
    geometry_list = ["PPC", "ICPC", "GEM"] ∧
    makeSourceArgsOk (successResult envAll).trace = true ∧
    (successResult envAll).trace.indexOf (Event.makeSourceEv geometry_list)
        < (successResult envAll).trace.indexOf Event.cythonizeEv ∧
    (successResult envAll).trace.indexOf Event.cythonizeEv
        < (successResult envAll).trace.length :=
  geometry_list_fixed envAll (successResult envAll) rfl

/-- Claim C5: the packaging helper import runs before any other step of
every successful run, and it binds `setup`/`Extension` from setuptools
when setuptools is importable and from `distutils.core` otherwise. -/
theorem packaging_import_first_with_fallback (e : Env) (r : RunResult)
    (h : runSetupScript e = Except.ok r) :
    r.trace.head? = some (Event.importEv
      (if e.hasSetuptools = true then "setuptools" else "distutils.core")) := by
  rw [runSetupScript_ok e r h]
  rfl

/-- Witness for `packaging_import_first_with_fallback`, at `envAll`
(setuptools importable) and at `envNoSetuptools` (fallback taken). -/
theorem packaging_import_first_with_fallback_witness :
    (successResult envAll).trace.head? = some (Event.importEv
      (if envAll.hasSetuptools = true then "setuptools"
       else "distutils.core")) ∧
    (successResult envNoSetuptools).trace.head? = some (Event.importEv
      (if envNoSetuptools.hasSetuptools = true then "setuptools"
       else "distutils.core")) :=
  ⟨packaging_import_first_with_fallback envAll (successResult envAll) rfl,
   packaging_import_first_with_fallback envNoSetuptools
     (successResult envNoSetuptools) rfl⟩

/-- Claim C6: the link-library list is `["m"]` exactly when `os.name` is
`"posix"`, and empty on every other platform. -/
theorem libraries_platform_conditional (e : Env) (r : RunResult)
    (h : runSetupScript e = Except.ok r) :
    r.ext.libraries = (if e.osName = "posix" then ["m"] else []) := by
  rw [runSetupScript_ok e r h]
  rfl

/-- Witness for `libraries_platform_conditional`, at `envAll` (posix) and
at `envWindows` (non-posix). -/
theorem libraries_platform_conditional_witness :
    (successResult envAll).ext.libraries
        = (if envAll.osName = "posix" then ["m"] else []) ∧
    (successResult envWindows).ext.libraries
        = (if envWindows.osName = "posix" then ["m"] else []) :=
  ⟨libraries_platform_conditional envAll (successResult envAll) rfl,
   libraries_platform_conditional envWindows (successResult envWindows) rfl⟩

/-- Claim C7: the declared runtime dependencies registered with `setup`
are exactly numpy, scipy and cython. -/
theorem install_requires_exact (e : Env) (r : RunResult)
    (h : runSetupScript e = Except.ok r) :
    r.setupArgs.install_requires = ["numpy", "scipy", "cython"] := by
  rw [runSetupScript_ok e r h]
  rfl

/-- Witness for `install_requires_exact` at the concrete environment
`envAll`. -/
theorem install_requires_exact_witness :
    (successResult envAll).setupArgs.install_requires
      = ["numpy", "scipy", "cython"] :=
  install_requires_exact envAll (successResult envAll) rfl

/-- Claim C9: in every successful run the script sets
`__SIGGEN_SETUP__ = True` on the builtins module (named `__builtin__` on
Python 2 and `builtins` on Python 3) strictly before importing the
`siggen` package, and the version string handed to `setup` is exactly
`siggen.__version__`. -/
theorem builtins_flag_before_siggen_import (e : Env) (r : RunResult)
    (h : runSetupScript e = Except.ok r) :
    r.trace.indexOf (Event.builtinsEv
        (if e.pyMajor < 3 then "__builtin__" else "builtins"))
      < r.trace.indexOf (Event.importEv "siggen") ∧
    r.trace.indexOf (Event.importEv "siggen") < r.trace.length ∧
    r.setupArgs.version = e.siggenVersion := by
  rw [runSetupScript_ok e r h]
  refine ⟨?_, ?_, rfl⟩ <;>
  · by_cases hs : e.hasSetuptools = true <;> by_cases hp : e.pyMajor < 3 <;>
      simp [successResult, packagingSource, builtinsModule, hs, hp]

/-- Witness for `builtins_flag_before_siggen_import` at the concrete
environment `envAll`. -/
theorem builtins_flag_before_siggen_import_witness :
    (successResult envAll).trace.indexOf (Event.builtinsEv
        (if envAll.pyMajor < 3 then "__builtin__" else "builtins"))
      < (successResult envAll).trace.indexOf (Event.importEv "siggen") ∧
    (successResult envAll).trace.indexOf (Event.importEv "siggen")
      < (successResult envAll).trace.length ∧
    (successResult envAll).setupArgs.version = envAll.siggenVersion :=
  builtins_flag_before_siggen_import envAll (successResult envAll) rfl

/-- Claim C10: on every platform and in every environment, the extra
compile arguments are exactly `-std=c++11`, the two warning-suppression
flags and `-DNO_THREADS`, and the extra link arguments are exactly
`-std=c++11`; none of them depends on the environment. -/
theorem compile_and_link_flags_unconditional (e : Env) (r : RunResult)
    (h : runSetupScript e = Except.ok r) :
    r.ext.extra_compile_args =
      ["-std=c++11", "-Wno-unused-function", "-Wno-uninitialized",
       "-DNO_THREADS"] ∧
    "-std=c++11" ∈ r.ext.extra_compile_args ∧
    "-DNO_THREADS" ∈ r.ext.extra_compile_args ∧
    r.ext.extra_link_args = ["-std=c++11"] := by
  rw [runSetupScript_ok e r h]
  exact ⟨rfl, by simp [successResult, mkExtension],
    by simp [successResult, mkExtension], rfl⟩

/-- Witness for `compile_and_link_flags_unconditional` at the concrete
environment `envWindows` (a non-posix platform, showing the flags are not
platform-conditional). -/
theorem compile_and_link_flags_unconditional_witness :
    (successResult envWindows).ext.extra_compile_args =
      ["-std=c++11", "-Wno-unused-function", "-Wno-uninitialized",
       "-DNO_THREADS"] ∧
    "-std=c++11" ∈ (successResult envWindows).ext.extra_compile_args ∧
    "-DNO_THREADS" ∈ (successResult envWindows).ext.extra_compile_args ∧
    (successResult envWindows).ext.extra_link_args = ["-std=c++11"] :=
  compile_and_link_flags_unconditional envWindows
    (successResult envWindows) rfl

end Siggen
